import Mathlib

/- Verification of the jsonrpc_v2_client transport layer (src/lib.rs) against its
natural-language specification. The Rust source is shallowly embedded: pure data
constructors become Lean structures, the serde_json collaborator's deterministic
output for the fixed envelope struct is modelled by executable renderers, and the
effectful body of Request::send is modelled as a function of the outcomes of the
three socket operations it performs (connect, write_all, read). Machine integers
(u64 ids, usize lengths) are modelled by Nat: the embedded code performs no
arithmetic on them, so no overflow wrapping is exercised. -/

set_option maxRecDepth 2048

namespace JsonrpcV2Client

/-- JSON values as exchanged with the serde_json collaborator. Objects keep their
fields as an ordered list, matching serde's serialization of struct fields in
declaration order. Numbers are restricted to integers: every number the embedded
code itself produces (the u64 correlation id) is an integer, and no claim under
verification depends on float formatting. -/
inductive Json where
  | null
  | bool (b : Bool)
  | num (n : Int)
  | str (s : String)
  | arr (xs : List Json)
  | obj (fields : List (String × Json))

/-- Hex digit used by the JSON string escaper, lowercase as in serde_json. -/
def hexDigitChar (n : Nat) : Char :=
  if n < 10 then Char.ofNat (48 + n) else Char.ofNat (87 + n)

/-- serde_json's escaping of a single character inside a JSON string: quote and
backslash get a backslash escape, the named control characters get their short
escapes, the remaining control characters below 0x20 get a \u00XX escape, and
every other character is emitted as itself. -/
def escapeChar (c : Char) : String :=
  if c = '\"' then "\\\""
  else if c = '\\' then "\\\\"
  else if c.toNat < 32 then
    if c = '\x08' then "\\b"
    else if c = '\t' then "\\t"
    else if c = '\n' then "\\n"
    else if c = '\x0c' then "\\f"
    else if c = '\r' then "\\r"
    else "\\u00" ++ String.mk [hexDigitChar (c.toNat / 16), hexDigitChar (c.toNat % 16)]
  else String.singleton c

/-- serde_json's rendering of a JSON string: quoted, with each character escaped. -/
def escapeString (s : String) : String :=
  "\"" ++ String.join (s.data.map escapeChar) ++ "\""

mutual

/-- Model of serde_json::to_string: the compact single-line rendering of a JSON
value, with no whitespace between tokens. -/
def renderValue : Json → String
  | .null => "null"
  | .bool b => if b then "true" else "false"
  | .num n => toString n
  | .str s => escapeString s
  | .arr xs => "[" ++ renderElems xs ++ "]"
  | .obj fs => "\x7b" ++ renderMembers fs ++ "\x7d"

/-- Compact rendering of array elements, comma separated. -/
def renderElems : List Json → String
  | [] => ""
  | [x] => renderValue x
  | x :: y :: xs => renderValue x ++ "," ++ renderElems (y :: xs)

/-- Compact rendering of object members, comma separated, key and value joined
by a bare colon. -/
def renderMembers : List (String × Json) → String
  | [] => ""
  | [(k, v)] => escapeString k ++ ":" ++ renderValue v
  | (k, v) :: m :: fs => escapeString k ++ ":" ++ renderValue v ++ "," ++ renderMembers (m :: fs)

end

/-- The indentation string at nesting depth d of serde_json's pretty printer:
two spaces per level. -/
def indentOf (d : Nat) : String := String.join (List.replicate d "  ")

mutual

/-- Model of serde_json's pretty printer (the formatter behind to_string_pretty)
for a value whose closing bracket sits at nesting depth d: scalars render as in
the compact form, empty containers render as a bracket pair, and non-empty
containers put every item on its own line indented by d+1 levels, items joined
by a comma and newline, with the closing bracket on its own line at depth d. -/
def renderValuePretty : Nat → Json → String
  | _, .null => "null"
  | _, .bool b => if b then "true" else "false"
  | _, .num n => toString n
  | _, .str s => escapeString s
  | _, .arr [] => "[]"
  | d, .arr (x :: xs) =>
    "[\n" ++ renderItemsPretty (d + 1) (x :: xs) ++ "\n" ++ indentOf d ++ "]"
  | _, .obj [] => "\x7b\x7d"
  | d, .obj (f :: fs) =>
    "\x7b\n" ++ renderEntriesPretty (d + 1) (f :: fs) ++ "\n" ++ indentOf d ++ "\x7d"

/-- Pretty rendering of array elements at depth d, one per line. -/
def renderItemsPretty : Nat → List Json → String
  | _, [] => ""
  | d, [x] => indentOf d ++ renderValuePretty d x
  | d, x :: y :: xs =>
    indentOf d ++ renderValuePretty d x ++ ",\n" ++ renderItemsPretty d (y :: xs)

/-- Pretty rendering of object members at depth d, one per line, key and value
joined by a colon and one space. -/
def renderEntriesPretty : Nat → List (String × Json) → String
  | _, [] => ""
  | d, [(k, v)] => indentOf d ++ escapeString k ++ ": " ++ renderValuePretty d v
  | d, (k, v) :: m :: fs =>
    indentOf d ++ escapeString k ++ ": " ++ renderValuePretty d v ++ ",\n"
      ++ renderEntriesPretty d (m :: fs)

end

/-- serde_json::to_string, compact form (used by the repository test
test_request_serialization as the expected serialization). -/
def to_string_compact (v : Json) : String := renderValue v

/-- serde_json::to_string_pretty, the serializer Request::send applies to the
envelope (lib.rs line 139). -/
def to_string_pretty (v : Json) : String := renderValuePretty 0 v

/-- version of protocol (lib.rs line 12). -/
def JSONRPC_VERSION : String := "2.0"

/-- Request parameters: struct Params<T: Serialize>(pub T) (lib.rs line 29). A
newtype struct serializes as its inner value, so the model carries the inner
value's JSON form directly. -/
structure Params where
  val : Json

/-- API Key container: struct APIKey(String, String) (lib.rs line 41), fields in
tuple order (header name, header value). -/
structure APIKey where
  name : String
  value : String

/-- APIKey::new (lib.rs lines 45-47). -/
def APIKey.new (key : String) (value : String) : APIKey :=
  { name := key, value := value }

/-- APIKey::as_header (lib.rs lines 49-51): format!("{}: {}", self.0, self.1). -/
def APIKey.as_header (k : APIKey) : String :=
  k.name ++ ": " ++ k.value

/-- Service address container (lib.rs lines 69-72): url is the host:port, and
endpoint is the service route. -/
structure ServiceAddress where
  url : String
  endpoint : String

/-- ServiceAddress::new (lib.rs lines 76-83): both arguments are stored verbatim
via to_string; the constructor performs no normalization of slashes. -/
def ServiceAddress.new (url : String) (endpoint : String) : ServiceAddress :=
  { url := url, endpoint := endpoint }

/-- The JSON-RPC request envelope, struct Request<T: Serialize> (lib.rs lines
111-116): private jsonrpc tag, public method, params, and id. The id field has
type u64 in the source, modelled by Nat (serialization only, no arithmetic). -/
structure Request where
  jsonrpc : String
  method : String
  params : Params
  id : Nat

/-- Request::new (lib.rs lines 120-127): sets jsonrpc to JSONRPC_VERSION; the
caller supplies only method, params and id. -/
def Request.new (method : String) (params : Params) (id : Nat) : Request :=
  { jsonrpc := JSONRPC_VERSION, method := method, params := params, id := id }

/-- The serde Serialize derive on struct Request: a JSON object whose fields
appear in declaration order jsonrpc, method, params, id; the Params newtype
contributes its inner value, and the u64 id serializes as a JSON number. -/
def Request.toJson (r : Request) : Json :=
  Json.obj [("jsonrpc", Json.str r.jsonrpc), ("method", Json.str r.method),
            ("params", r.params.val), ("id", Json.num (r.id : Int))]

/-- The HTTP request string built by Request::send (lib.rs lines 137-188): the
two format! branches of the match on api_key, written out exactly. The line
continuations in the source's format strings strip the newline and leading
whitespace, so each branch is one flat literal. content_length is json.len(),
Rust's String::len, which counts UTF-8 bytes. -/
def Request.requestString (r : Request) (service_address : ServiceAddress)
    (api_key : Option APIKey) : String :=
  let json := to_string_pretty r.toJson
  let content_length := json.utf8ByteSize
  match api_key with
  | some key_value =>
    "POST " ++ service_address.endpoint
      ++ " HTTP/1.1\r\nContent-Type: application/json\r\nUser-Agent: jsonrpc_v2_client\r\nAccept: application/json\r\n"
      ++ key_value.as_header ++ "\r\nContent-Length: " ++ toString content_length
      ++ "\r\n\r\n" ++ json
  | none =>
    "POST " ++ service_address.endpoint
      ++ " HTTP/1.1\r\nContent-Type: application/json\r\nUser-Agent: jsonrpc_v2_client\r\nAccept: application/json\r\nContent-Length: "
      ++ toString content_length ++ "\r\n\r\n" ++ json

/-- The receive step of Request::send (lib.rs lines 142, 218-226): client.read
fills the fixed buffer [0u8; 4 * 1024], so one call obtains at most the first
4 * 1024 bytes of the response data; bytes are modelled as Nat. -/
def bufferedRead (stream : List Nat) : List Nat := stream.take (4 * 1024)

/-- The header/body separator "\r\n\r\n" as a character list. -/
def crlfcrlfChars : List Char := ['\r', '\n', '\r', '\n']

/-- Whether the second list begins with the first (the prefix test used to model
Rust's str::split on a fixed needle). -/
def listStartsWith : List Char → List Char → Bool
  | [], _ => true
  | _ :: _, [] => false
  | p :: ps, c :: cs => p == c && listStartsWith ps cs

/-- First occurrence of the separator "\r\n\r\n" in a character list: none when
the separator does not occur; otherwise the text before the first occurrence
paired with the text after it. -/
def splitFirstOnSep : List Char → Option (List Char × List Char)
  | [] => none
  | c :: cs =>
    if listStartsWith crlfcrlfChars (c :: cs) then
      some ([], (c :: cs).drop 4)
    else
      match splitFirstOnSep cs with
      | some (pre, post) => some (c :: pre, post)
      | none => none

/-- Whether the received text contains the "\r\n\r\n" separator at all. -/
def containsSeparator (text : String) : Bool :=
  (splitFirstOnSep text.data).isSome

/-- Model of the source expression text.split("\r\n\r\n").collect::<Vec<&str>>()[1]
(lib.rs lines 241-243): Rust's split yields the segments between occurrences of
the separator, and the index [1] selects the second segment — the text between
the first occurrence and the next one (or the end of the text). When the
separator does not occur the split has a single segment and the index is out of
bounds, a panic; that panic is modelled by none. -/
def bodySegment (text : String) : Option String :=
  match splitFirstOnSep text.data with
  | none => none
  | some (_, post) =>
    match splitFirstOnSep post with
    | none => some (String.mk post)
    | some (pre2, _) => some (String.mk pre2)

/-- Model of Rust str::trim (lib.rs line 243): whitespace removed from both ends.
(Rust trims the full Unicode White_Space set; the embedded predicate covers the
ASCII whitespace actually reachable here.) -/
def trimString (s : String) : String :=
  String.mk (((s.data.dropWhile Char.isWhitespace).reverse.dropWhile Char.isWhitespace).reverse)

/-- Outcome of one socket operation: Ok as in the source, or Err with the I/O
error message. -/
inductive NetResult (α : Type) where
  | ok (val : α)
  | err (msg : String)

/-- The outcomes of the three socket operations performed by one call of
Request::send, in program order: TcpStream::connect, write_all, read. The read
outcome carries the lossy-decoded text of the bytes the single read call placed
in the buffer (String::from_utf8_lossy of buffer[..buffer_size]). -/
structure NetTrace where
  connect : NetResult Unit
  write : NetResult Unit
  read : NetResult String

/-- The result of a call of Request::send: either the serde_json::Value it
returns, or a process-aborting panic (from .unwrap() or an out-of-bounds index)
with the panic message. The source signature returns a bare Value, so a panic is
the only possible failure outcome. -/
inductive SendOutcome where
  | value (v : Json)
  | panic (msg : String)

/-- Step-by-step model of the body of Request::send (lib.rs lines 129-247),
parameterized by the outcomes of the three socket operations and by the external
serde_json::from_str collaborator (parse; none models a parse error). The model
mirrors the source exactly: connect's result is unwrapped, so an Err panics; the
frame is built and written, and an Err from write_all is only logged (lines
204-210), never surfaced; an Err from read is only logged and leaves buffer_size
at 0, so the buffer text is empty (lines 228-234); the received text is split on
"\r\n\r\n" and segment [1] is taken, a panic when the separator is absent; the
segment is trimmed and parsed, and the parse result is unwrapped, so a parse
error panics. -/
def Request.sendModel (parse : String → Option Json) (r : Request)
    (service_address : ServiceAddress) (api_key : Option APIKey)
    (net : NetTrace) : SendOutcome :=
  match net.connect with
  | NetResult.err e => SendOutcome.panic e
  | NetResult.ok _ =>
    let _request := r.requestString service_address api_key
    let bufferText : String :=
      match net.read with
      | NetResult.ok text => text
      | NetResult.err _ => ""
    match bodySegment bufferText with
    | none => SendOutcome.panic "index out of bounds: the len is 1 but the index is 1"
    | some seg =>
      match parse (trimString seg) with
      | some v => SendOutcome.value v
      | none => SendOutcome.panic "called unwrap on an Err value from serde_json::from_str"

/-- task::block_on (lib.rs line 135): runs the async block to completion and
returns its value; on the model of the async body this is the identity. -/
def block_on {α : Type} (body : α) : α := body

/-- Request::send (lib.rs lines 129-247): the single public entry point of the
client; it wraps the inline async block, modelled by sendModel, in
task::block_on. The source exposes no separate asynchronous entry point. -/
def Request.send (parse : String → Option Json) (r : Request)
    (service_address : ServiceAddress) (api_key : Option APIKey)
    (net : NetTrace) : SendOutcome :=
  block_on (r.sendModel parse service_address api_key net)

/-- The header lines of the frame Request::send actually emits, in order:
request line with the endpoint used verbatim, Content-Type, User-Agent, Accept,
the credential header iff one is supplied, and Content-Length. -/
def headerLines (endpoint : String) (api_key : Option APIKey) (len : Nat) : List String :=
  ["POST " ++ endpoint ++ " HTTP/1.1",
   "Content-Type: application/json",
   "User-Agent: jsonrpc_v2_client",
   "Accept: application/json"]
  ++ (match api_key with | some k => [k.as_header] | none => [])
  ++ ["Content-Length: " ++ toString len]

/-- The wire frame exactly as the specification's §6 describes it, written from
the spec's words for comparison with requestString: request line whose path is
prefixed by exactly one slash, then Host, Content-Type, User-Agent, Accept,
optional credential header, Content-Length, the blank line, and the body. -/
def specWireFrame (host_port : String) (path : String) (credential : Option APIKey)
    (body : String) : String :=
  "POST /" ++ path ++ " HTTP/1.1\r\n"
    ++ "Host: " ++ host_port ++ "\r\n"
    ++ "Content-Type: application/json\r\n"
    ++ "User-Agent: jsonrpc_v2_client\r\n"
    ++ "Accept: application/json\r\n"
    ++ (match credential with | some k => k.as_header ++ "\r\n" | none => "")
    ++ "Content-Length: " ++ toString body.utf8ByteSize ++ "\r\n\r\n" ++ body

theorem string_eq_of_data (a b : String) (h : a.data = b.data) : a = b := by
  cases a
  cases b
  simp only at h
  rw [h]

theorem listStartsWith_iff (p s : List Char) :
    listStartsWith p s = true ↔ ∃ rest, s = p ++ rest := by
  induction p generalizing s with
  | nil => simp [listStartsWith]
  | cons a ps ih =>
    cases s with
    | nil => simp [listStartsWith]
    | cons c cs =>
      simp only [listStartsWith, Bool.and_eq_true, beq_iff_eq, ih, List.cons_append]
      constructor
      · rintro ⟨rfl, rest, rfl⟩
        exact ⟨rest, rfl⟩
      · rintro ⟨rest, h⟩
        obtain ⟨rfl, rfl⟩ := List.cons.inj h
        exact ⟨rfl, rest, rfl⟩

theorem splitFirstOnSep_eq_none_iff (s : List Char) :
    splitFirstOnSep s = none ↔ ∀ pre post, s ≠ pre ++ crlfcrlfChars ++ post := by
  induction s with
  | nil =>
    simp only [splitFirstOnSep, true_iff]
    intro pre post h
    have hl := congrArg List.length h
    simp [crlfcrlfChars] at hl
    omega
  | cons c cs ih =>
    cases hsw : listStartsWith crlfcrlfChars (c :: cs) with
    | true =>
      obtain ⟨rest, hr⟩ := (listStartsWith_iff _ _).mp hsw
      simp only [splitFirstOnSep, hsw, if_true]
      constructor
      · intro h
        cases h
      · intro H
        exact absurd hr (by simpa using H [] rest)
    | false =>
      have hnostart : ∀ rest, c :: cs ≠ crlfcrlfChars ++ rest := by
        intro rest h
        have : listStartsWith crlfcrlfChars (c :: cs) = true :=
          (listStartsWith_iff _ _).mpr ⟨rest, h⟩
        rw [hsw] at this
        cases this
      simp only [splitFirstOnSep, hsw, Bool.false_eq_true, if_false]
      cases hsplit : splitFirstOnSep cs with
      | some pp =>
        obtain ⟨pre, post⟩ := pp
        simp only [hsplit]
        constructor
        · intro h
          cases h
        · intro H
          have hcs : ¬ ∀ pre2 post2, cs ≠ pre2 ++ crlfcrlfChars ++ post2 := by
            intro Hcs
            rw [ih.mpr Hcs] at hsplit
            cases hsplit
          push_neg at hcs
          obtain ⟨pre2, post2, h2⟩ := hcs
          exact (H (c :: pre2) post2 (by simp [h2])).elim
      | none =>
        simp only [hsplit, true_iff]
        intro pre post h
        cases pre with
        | nil =>
          exact hnostart post (by simpa using h)
        | cons a pre2 =>
          simp only [List.cons_append, List.append_assoc] at h
          obtain ⟨rfl, h3⟩ := List.cons.inj h
          exact (ih.mp hsplit) pre2 post (by simpa [List.append_assoc] using h3)

theorem containsSeparator_eq_false_iff (text : String) :
    containsSeparator text = false ↔ ∀ pre post, text.data ≠ pre ++ crlfcrlfChars ++ post := by
  rw [← splitFirstOnSep_eq_none_iff]
  unfold containsSeparator
  cases splitFirstOnSep text.data <;> simp

/-- C1: connecting to an address with no listening service does not yield a
classified ConnectionError value: the source unwraps TcpStream::connect and
panics (first conjunct, the model of send evaluated at a failing connect). The
remaining failures are silently suppressed rather than classified: the outcome
of send is unchanged whether write_all fails or succeeds (second conjunct), and
a failed read is treated exactly like a successfully read empty buffer (third
conjunct), contradicting the claim's ConnectionError/ResponseError taxonomy and
the repository's own test test_request_connection_failure. -/
theorem send_panics_on_connect_failure :
    ((Request.new "mul" ⟨Json.arr [Json.num 2, Json.num 3]⟩ 0).sendModel
        (fun _ => none) (ServiceAddress.new "127.0.0.1:9999" "/api") none
        ⟨NetResult.err "Connection refused (os error 111)", NetResult.ok (), NetResult.ok ""⟩
      = SendOutcome.panic "Connection refused (os error 111)") ∧
    (∀ (parse : String → Option Json) (r : Request) (sa : ServiceAddress)
        (key : Option APIKey) (rd : NetResult String) (e : String),
      Request.sendModel parse r sa key ⟨NetResult.ok (), NetResult.err e, rd⟩
        = Request.sendModel parse r sa key ⟨NetResult.ok (), NetResult.ok (), rd⟩) ∧
    (∀ (parse : String → Option Json) (r : Request) (sa : ServiceAddress)
        (key : Option APIKey) (e : String),
      Request.sendModel parse r sa key ⟨NetResult.ok (), NetResult.ok (), NetResult.err e⟩
        = Request.sendModel parse r sa key ⟨NetResult.ok (), NetResult.ok (), NetResult.ok ""⟩) :=
  ⟨rfl, fun _ _ _ _ _ _ => rfl, fun _ _ _ _ _ => rfl⟩

/-- C2 (counterexample): at a concrete envelope, address and no credential, the
message requestString emits differs from the frame the claim describes (written
out as specWireFrame, with the slash-prefixed path and the Host header): the
source emits no Host header. -/
theorem frame_has_no_host_header :
    (Request.new "add" ⟨Json.arr [Json.num 1, Json.num 2]⟩ 0).requestString
        (ServiceAddress.new "127.0.0.1:8082" "/api") none
      ≠ specWireFrame "127.0.0.1:8082" "api" none
          (to_string_pretty (Request.new "add" ⟨Json.arr [Json.num 1, Json.num 2]⟩ 0).toJson) := by
  decide

/-- C2 (amended): for every envelope, service address and optional credential,
the outbound message is the sequence of header lines in the fixed order request
line (with the stored endpoint used verbatim), Content-Type, User-Agent, Accept,
the credential header present iff a credential is supplied, and Content-Length,
each line terminated by CRLF, then the exact CRLFCRLF separator (the final CRLF
below completes it), then the serialized JSON body with no trailing terminator.
No Host header and no slash normalization of the path. -/
theorem requestString_frame (r : Request) (sa : ServiceAddress) (key : Option APIKey) :
    r.requestString sa key =
      String.join ((headerLines sa.endpoint key
          (to_string_pretty r.toJson).utf8ByteSize).map (fun line => line ++ "\r\n"))
        ++ "\r\n" ++ to_string_pretty r.toJson := by
  cases key with
  | none =>
    apply string_eq_of_data
    simp [Request.requestString, headerLines, String.join, List.append_assoc]
  | some k =>
    apply string_eq_of_data
    simp [Request.requestString, headerLines, String.join, List.append_assoc]

/-- C3 (counterexample): a received response with no CRLFCRLF separator makes
send panic (the out-of-bounds index on the split) instead of returning a
classified InvalidResponseError value; in particular the outcome is not a
returned value at all. -/
theorem no_separator_panic_example :
    ((Request.new "add" ⟨Json.num 7⟩ 1).sendModel (fun _ => none)
        (ServiceAddress.new "127.0.0.1:8082" "/api") none
        ⟨NetResult.ok (), NetResult.ok (), NetResult.ok "HTTP/1.1 200 OK\r\nContent-Type: text/plain"⟩
      = SendOutcome.panic "index out of bounds: the len is 1 but the index is 1") ∧
    ¬ ∃ v : Json,
      (Request.new "add" ⟨Json.num 7⟩ 1).sendModel (fun _ => none)
        (ServiceAddress.new "127.0.0.1:8082" "/api") none
        ⟨NetResult.ok (), NetResult.ok (), NetResult.ok "HTTP/1.1 200 OK\r\nContent-Type: text/plain"⟩
      = SendOutcome.value v :=
  ⟨rfl, fun ⟨_, h⟩ => nomatch h⟩

/-- C3 (amended): whenever the connection opens and the received text contains
no CRLFCRLF header/body separator, Request::send panics with the out-of-bounds
index on the second split segment; it does not return a classified error
value. -/
theorem no_separator_panics (parse : String → Option Json) (r : Request)
    (sa : ServiceAddress) (key : Option APIKey) (wr : NetResult Unit) (text : String)
    (h : containsSeparator text = false) :
    Request.sendModel parse r sa key ⟨NetResult.ok (), wr, NetResult.ok text⟩
      = SendOutcome.panic "index out of bounds: the len is 1 but the index is 1" := by
  have hnone : splitFirstOnSep text.data = none := by
    unfold containsSeparator at h
    cases hx : splitFirstOnSep text.data with
    | none => rfl
    | some p => rw [hx] at h; cases h
  simp only [Request.sendModel, bodySegment, hnone]

/-- C3 (witness): the amended theorem applied at a concrete separator-free
response. -/
theorem no_separator_panics_witness :
    Request.sendModel (fun _ => none) (Request.new "mul" ⟨Json.num 0⟩ 0)
        (ServiceAddress.new "127.0.0.1:8082" "/api") none
        ⟨NetResult.ok (), NetResult.ok (), NetResult.ok "HTTP/1.1 404 Not Found"⟩
      = SendOutcome.panic "index out of bounds: the len is 1 but the index is 1" :=
  no_separator_panics (fun _ => none) (Request.new "mul" ⟨Json.num 0⟩ 0)
    (ServiceAddress.new "127.0.0.1:8082" "/api") none (NetResult.ok ())
    "HTTP/1.1 404 Not Found" (by decide)

/-- C4 (counterexample): the receive step does not read a 4097-byte response to
completion: the single read into the fixed 4096-byte buffer drops its tail. -/
theorem bufferedRead_not_to_completion :
    bufferedRead (List.replicate 4097 (0 : Nat)) ≠ List.replicate 4097 (0 : Nat) := by
  intro h
  have hl := congrArg List.length h
  rw [bufferedRead, List.length_take, List.length_replicate] at hl
  omega

/-- C4 (amended): on a response stream longer than 4096 bytes, the receive step
of Request::send obtains exactly the first 4096 bytes — a strict truncation
leaving a non-empty rest of the stream unread — rather than reading the response
to completion. -/
theorem bufferedRead_truncates (stream : List Nat) (h : 4096 < stream.length) :
    (bufferedRead stream).length = 4096 ∧
    ∃ rest, rest ≠ [] ∧ stream = bufferedRead stream ++ rest := by
  constructor
  · simp only [bufferedRead, List.length_take]
    omega
  · refine ⟨stream.drop 4096, ?_, ?_⟩
    · intro hnil
      have hl := congrArg List.length hnil
      simp at hl
      omega
    · show stream = stream.take (4 * 1024) ++ stream.drop 4096
      norm_num [List.take_append_drop]

/-- C4 (witness): the amended theorem applied to a concrete 4097-byte stream. -/
theorem bufferedRead_truncates_witness :
    4096 < (List.replicate 4097 (0 : Nat)).length ∧
    ((bufferedRead (List.replicate 4097 (0 : Nat))).length = 4096 ∧
      ∃ rest, rest ≠ [] ∧
        List.replicate 4097 (0 : Nat) = bufferedRead (List.replicate 4097 (0 : Nat)) ++ rest) :=
  ⟨by rw [List.length_replicate]; omega,
    bufferedRead_truncates (List.replicate 4097 (0 : Nat)) (by rw [List.length_replicate]; omega)⟩

/-- C5: ServiceAddress::new stores both of its arguments verbatim; evaluating it
at the inputs of the repository's own test test_service_address shows the
trailing slash of the host:port and the leading/trailing slashes of the path are
kept, contradicting the normalized values the test asserts (the source also has
no full_path method at all). -/
theorem serviceAddress_new_stores_verbatim :
    (ServiceAddress.new "localhost:8080/" "/api/").url = "localhost:8080/" ∧
    (ServiceAddress.new "localhost:8080/" "/api/").endpoint = "/api/" ∧
    (ServiceAddress.new "localhost:8080/" "/api/").url ≠ "localhost:8080" ∧
    (ServiceAddress.new "localhost:8080/" "/api/").endpoint ≠ "api" :=
  ⟨rfl, rfl, by decide, by decide⟩

/-- C6: the envelope's id is hard-typed u64, so every serialized envelope
carries a JSON integer id (third conjunct); at the input of the repository's own
test test_request_serialization the serialization has "id":1 (first conjunct)
and cannot equal the string-id form "id":"1" the test expects (second conjunct).
A string id is not representable, so no caller-supplied string id can be
round-tripped. -/
theorem serialized_id_is_integer :
    (to_string_compact (Request.new "test"
        ⟨Json.arr [Json.num 1, Json.num 2, Json.num 3]⟩ 1).toJson
      = "\x7b\"jsonrpc\":\"2.0\",\"method\":\"test\",\"params\":[1,2,3],\"id\":1\x7d") ∧
    (to_string_compact (Request.new "test"
        ⟨Json.arr [Json.num 1, Json.num 2, Json.num 3]⟩ 1).toJson
      ≠ "\x7b\"jsonrpc\":\"2.0\",\"method\":\"test\",\"params\":[1,2,3],\"id\":\"1\"\x7d") ∧
    (∀ (method : String) (params : Params) (id : Nat), ∃ n : Int,
      (Request.new method params id).toJson = Json.obj
        [("jsonrpc", Json.str "2.0"), ("method", Json.str method),
         ("params", params.val), ("id", Json.num n)]) :=
  ⟨rfl, by decide, fun _ _ id => ⟨(id : Int), rfl⟩⟩

/-- C7: for all method, params and id inputs, the constructed envelope has
protocol tag "2.0" (which Request::new sets itself — it takes no jsonrpc
argument, so the field is never caller-settable), its serialization is a JSON
object with exactly the four keys jsonrpc, method, params, id in that order, and
the rendered string lays the four fields out in that same order. -/
theorem request_serialization_shape (method : String) (params : Params) (id : Nat) :
    (Request.new method params id).jsonrpc = JSONRPC_VERSION ∧
    (Request.new method params id).toJson
      = Json.obj [("jsonrpc", Json.str "2.0"), ("method", Json.str method),
          ("params", params.val), ("id", Json.num (id : Int))] ∧
    to_string_compact (Request.new method params id).toJson
      = "\x7b\"jsonrpc\":\"2.0\",\"method\":" ++ escapeString method ++ ",\"params\":"
          ++ to_string_compact params.val ++ ",\"id\":" ++ toString (id : Int) ++ "\x7d" := by
  refine ⟨rfl, rfl, ?_⟩
  apply string_eq_of_data
  simp [to_string_compact, renderValue, renderMembers, escapeString, escapeChar,
    String.singleton, Request.toJson, Request.new, JSONRPC_VERSION, List.append_assoc]

/-- C8: the true half of the claim — the blocking entry point is exactly the
async body run to completion through task::block_on (there is no duplicated
framing/parsing logic). The claim's other half fails outside this theorem: the
source exposes no separate asynchronous entry point (the send_async the
repository test test_request_async calls does not exist). -/
theorem send_runs_async_body_to_completion (parse : String → Option Json)
    (r : Request) (sa : ServiceAddress) (key : Option APIKey) (net : NetTrace) :
    Request.send parse r sa key net = block_on (Request.sendModel parse r sa key net) ∧
    Request.send parse r sa key net = Request.sendModel parse r sa key net :=
  ⟨rfl, rfl⟩

/-- C9: for every envelope, address and credential, the frame send emits carries
a Content-Length equal to the UTF-8 byte length of exactly the serialized body
that follows the separator (first conjunct); byte length and character count
genuinely differ on a body with multi-byte characters (second conjunct), and the
first conjunct shows the byte length is the one emitted. -/
theorem content_length_counts_bytes :
    (∀ (r : Request) (sa : ServiceAddress) (key : Option APIKey),
      ∃ before, r.requestString sa key
        = before ++ "Content-Length: "
            ++ toString (to_string_pretty r.toJson).utf8ByteSize
            ++ "\r\n\r\n" ++ to_string_pretty r.toJson) ∧
    ((to_string_pretty (Request.new "mul" ⟨Json.str "héllo"⟩ 0).toJson).utf8ByteSize
      ≠ (to_string_pretty (Request.new "mul" ⟨Json.str "héllo"⟩ 0).toJson).length) := by
  constructor
  · intro r sa key
    cases key with
    | none =>
      refine ⟨"POST " ++ sa.endpoint
        ++ " HTTP/1.1\r\nContent-Type: application/json\r\nUser-Agent: jsonrpc_v2_client\r\nAccept: application/json\r\n", ?_⟩
      apply string_eq_of_data
      simp [Request.requestString, List.append_assoc]
    | some k =>
      refine ⟨"POST " ++ sa.endpoint
        ++ " HTTP/1.1\r\nContent-Type: application/json\r\nUser-Agent: jsonrpc_v2_client\r\nAccept: application/json\r\n"
        ++ k.as_header ++ "\r\n", ?_⟩
      apply string_eq_of_data
      simp [Request.requestString, List.append_assoc]
  · decide

/-- C10: the JSON body on the wire is the pretty-printed serialization: for
every envelope, address and credential the frame ends with the CRLFCRLF
separator followed by to_string_pretty of the envelope, and the Content-Length
before it is computed over those pretty-printed bytes (first conjunct); at a
concrete envelope the pretty serialization is the expected multi-line indented
text (second conjunct) and differs from the compact single-line form (third
conjunct). -/
theorem body_is_pretty_serialization :
    (∀ (r : Request) (sa : ServiceAddress) (key : Option APIKey),
      ∃ headerPart, r.requestString sa key
          = headerPart ++ toString (to_string_pretty r.toJson).utf8ByteSize
              ++ "\r\n\r\n" ++ to_string_pretty r.toJson) ∧
    (to_string_pretty (Request.new "add" ⟨Json.arr [Json.num 1, Json.num 2]⟩ 0).toJson
      = "\x7b\n  \"jsonrpc\": \"2.0\",\n  \"method\": \"add\",\n  \"params\": [\n    1,\n    2\n  ],\n  \"id\": 0\n\x7d") ∧
    (to_string_pretty (Request.new "add" ⟨Json.arr [Json.num 1, Json.num 2]⟩ 0).toJson
      ≠ to_string_compact (Request.new "add" ⟨Json.arr [Json.num 1, Json.num 2]⟩ 0).toJson) := by
  refine ⟨?_, rfl, by decide⟩
  intro r sa key
  cases key with
  | none =>
    refine ⟨"POST " ++ sa.endpoint
      ++ " HTTP/1.1\r\nContent-Type: application/json\r\nUser-Agent: jsonrpc_v2_client\r\nAccept: application/json\r\nContent-Length: ", ?_⟩
    apply string_eq_of_data
    simp [Request.requestString, List.append_assoc]
  | some k =>
    refine ⟨"POST " ++ sa.endpoint
      ++ " HTTP/1.1\r\nContent-Type: application/json\r\nUser-Agent: jsonrpc_v2_client\r\nAccept: application/json\r\n"
      ++ k.as_header ++ "\r\nContent-Length: ", ?_⟩
    apply string_eq_of_data
    simp [Request.requestString, List.append_assoc]

end JsonrpcV2Client
